import Mathlib

/-!
Verification of the savings allocation optimization engine of the
quantify-lite backend (app/services/optimization_service.py together with
the data model in app/models.py), as a shallow embedding over exact
rationals.  Python floats are modelled as rationals, Python None as Option,
a raised exception as Except.error, and the external Pyomo/GLPK
linear-program solver as an abstract function together with a correctness
contract taken from the specification (section 4.3), since the solver is
not part of this repository.
-/

/-- Account record (app/models.py).  The Python default max_investment of
float infinity is modelled as none; a finite bound is some bound. -/
structure Account where
  name : String
  interest_rate : ℚ
  account_type : String
  platform : String
  min_investment : ℚ := 0
  max_investment : Option ℚ := none
  term : ℤ := 0
  url : Option String := none
  deriving DecidableEq

/-- SavingsGoal record (app/models.py): a target amount and a horizon in
months. -/
structure SavingsGoal where
  amount : ℚ
  horizon : ℤ
  deriving DecidableEq

/-- OptimizationInput record (app/models.py). -/
structure OptimizationInput where
  total_investment : ℚ
  savings_goals : List SavingsGoal
  earnings : Option ℚ := none
  isa_allowance_used : Option ℚ := some 0
  other_savings_income : Option ℚ := some 0
  deriving DecidableEq

/-- Investment line item (app/models.py). -/
structure Investment where
  account_name : String
  amount : ℚ
  aer : ℚ
  term : String
  is_isa : Bool
  url : String
  platform : String
  deriving DecidableEq

/-- Summary record (app/models.py).  All nine fields are required: the
dataclass declares no default for any of them, so constructing a Summary
without one of these fields raises TypeError in Python. -/
structure Summary where
  total_investment : ℚ
  gross_annual_interest : ℚ
  net_annual_interest : ℚ
  net_effective_aer : ℚ
  tax_due : ℚ
  tax_band : String
  personal_savings_allowance : ℚ
  tax_rate : ℚ
  tax_free_allowance_remaining : ℚ
  deriving DecidableEq

/-- OptimizationResult record (app/models.py). -/
structure OptimizationResult where
  investments : List Investment
  summary : Option Summary
  status : String
  optimization_record_id : Option ℤ := none
  deriving DecidableEq

/-- Python truthiness for an optional number, as used by the expression
x or d in the source: None and 0.0 are falsy and give the default. -/
def pyOr (x : Option ℚ) (d : ℚ) : ℚ :=
  match x with
  | none => d
  | some v => if v = 0 then d else v

/-- Python truthiness for an optional string, as used by acc.url or d in
the source: None and the empty string are falsy and give the default. -/
def pyOrStr (x : Option String) (d : String) : String :=
  match x with
  | none => d
  | some s => if s = "" then d else s

/-- Helper for the Python substring test: does the second character list
begin with the first one. -/
def charsBeginWith : List Char → List Char → Bool
  | [], _ => true
  | _ :: _, [] => false
  | a :: as, b :: bs => a == b && charsBeginWith as bs

/-- Helper for the Python substring test: does the pattern occur anywhere
in the character list. -/
def charsContain (pat : List Char) : List Char → Bool
  | [] => pat.isEmpty
  | c :: cs => charsBeginWith pat (c :: cs) || charsContain pat cs

/-- The Python expression sub in s on strings: substring containment. -/
def pyInStr (sub s : String) : Bool := charsContain sub.toList s.toList

/-- Round-half-to-even on a rational, the tie rule of the Python builtin
round. -/
def roundHalfEven (x : ℚ) : ℤ :=
  if x - ⌊x⌋ < 1 / 2 then ⌊x⌋
  else if 1 / 2 < x - ⌊x⌋ then ⌊x⌋ + 1
  else if ⌊x⌋ % 2 = 0 then ⌊x⌋ else ⌊x⌋ + 1

/-- The Python call round(x, 2): round to two decimal places. -/
def pyRound2 (x : ℚ) : ℚ := (roundHalfEven (100 * x) : ℚ) / 100

/-- Python max over a list of numbers, with a default for the empty list,
as in the source expression max(goal_horizons_years) if goal_horizons_years
else 0. -/
def pyMaxList (l : List ℚ) (d : ℚ) : ℚ :=
  match l with
  | [] => d
  | x :: xs => xs.foldl max x

/-- Tax band information returned by _get_tax_info. -/
structure TaxInfo where
  psa : ℚ
  tax_rate : ℚ
  band : String
  deriving DecidableEq

/-- The function _get_tax_info (optimization_service.py lines 5 to 20):
Personal Savings Allowance and tax rate from earnings; None means the
earnings were not provided. -/
def getTaxInfo (earnings : Option ℚ) : TaxInfo :=
  match earnings with
  | none => { psa := 1000, tax_rate := 0.20, band := "Basic Rate" }
  | some e =>
    if e ≤ 50270 then { psa := 1000, tax_rate := 0.20, band := "Basic Rate" }
    else if e ≤ 125140 then { psa := 500, tax_rate := 0.40, band := "Higher Rate" }
    else { psa := 0, tax_rate := 0.45, band := "Additional Rate" }

/-- The function _get_starting_rate_for_savings (optimization_service.py
lines 23 to 45). -/
def getStartingRateForSavings (earnings : Option ℚ) : ℚ :=
  match earnings with
  | none => 0
  | some e =>
    if 12570 + 5000 ≤ e then 0
    else if e ≤ 12570 then 5000
    else max 0 (5000 - (e - 12570))

/-- The value max_horizon_years of optimize_savings: the largest goal
horizon in years, 0 when there are no goals. -/
def maxHorizonYears (goals : List SavingsGoal) : ℚ :=
  pyMaxList (goals.map (fun g => (g.horizon : ℚ) / 12)) 0

/-- The value investment_term_years of optimize_savings: the larger of one
year and the longest goal horizon. -/
def investmentTermYears (input : OptimizationInput) : ℚ :=
  max 1 (maxHorizonYears input.savings_goals)

/-- The list eligible_accounts of optimize_savings: accounts whose term is
0 (easy access) or whose term in years is within the investment term. -/
def eligibleAccounts (input : OptimizationInput) (accounts : List Account) : List Account :=
  accounts.filter
    (fun a => a.term == 0 || decide ((a.term : ℚ) / 12 ≤ investmentTermYears input))

/-- The membership test isa in acc.account_type of the source. -/
def isISA (a : Account) : Bool := pyInStr "isa" a.account_type

/-- The list isa_accounts of optimize_savings, relative to a given account
list. -/
def isaAccounts (l : List Account) : List Account := l.filter (fun a => isISA a)

/-- The list non_isa_accounts of optimize_savings, relative to a given
account list. -/
def nonIsaAccounts (l : List Account) : List Account := l.filter (fun a => !(isISA a))

/-- A valuation of the Pyomo decision variables.  The source indexes
model.investments by account name (Var over the list of names), so amounts
are a function of the name: two accounts with the same name necessarily
share one variable. -/
structure Assignment where
  inv : String → ℚ
  taxable_interest : ℚ
  tax_free_interest_non_isa : ℚ

/-- The Pyomo expression sum(m.investments[acc.name] for acc in l): the sum
of the decision variables over an account list, one summand per list entry
(a duplicated name is counted once per occurrence). -/
def invSum (l : List Account) (xinv : String → ℚ) : ℚ :=
  (l.map (fun a => xinv a.name)).sum

/-- The Pyomo expression sum(m.investments[acc.name] * acc.interest_rate
for acc in l). -/
def interestSum (l : List Account) (xinv : String → ℚ) : ℚ :=
  (l.map (fun a => xinv a.name * a.interest_rate)).sum

/-- The value unique_horizons of optimize_savings.  The source sorts the
set of horizons; only membership matters to the constraints, so dedup is
used here. -/
def uniqueHorizons (goals : List SavingsGoal) : List ℤ :=
  (goals.map SavingsGoal.horizon).dedup

/-- The goal horizons whose equation has no matching eligible account.
For such a horizon the source computes, at line 118, the Python builtin
sum over the empty relevant_accounts list, which is the plain int 0, so
the equality with the goal amount is a plain Python bool rather than a
Pyomo expression, and ConstraintList.add raises ValueError at line 119
(Pyomo rejects a constraint that resolves to a trivial Boolean), before
the solver is ever invoked. -/
def unmatchedHorizons (input : OptimizationInput) (accounts : List Account) : List ℤ :=
  (uniqueHorizons input.savings_goals).filter
    (fun h => ((eligibleAccounts input accounts).filter (fun a => a.term == h)).isEmpty)

/-- The total tax free allowance psa + starting_rate_for_savings computed
by optimize_savings. -/
def totalAllowanceOf (input : OptimizationInput) : ℚ :=
  (getTaxInfo input.earnings).psa + getStartingRateForSavings input.earnings

/-- The data defining the linear program built by optimize_savings. -/
structure LPModel where
  eligible : List Account
  total_investment : ℚ
  goals : List SavingsGoal
  total_tax_free_allowance : ℚ
  isa_allowance_remaining : ℚ
  tax_rate : ℚ

/-- The linear program built by optimize_savings from its input, after the
precomputation of tax data and account eligibility. -/
def mkModel (input : OptimizationInput) (accounts : List Account) : LPModel :=
  { eligible := eligibleAccounts input accounts
    total_investment := input.total_investment
    goals := input.savings_goals
    total_tax_free_allowance := totalAllowanceOf input
    isa_allowance_remaining := 20000 - pyOr input.isa_allowance_used 0
    tax_rate := (getTaxInfo input.earnings).tax_rate }

/-- An upper investment limit taken from an optional bound; none stands for
the unbounded Python float infinity, which every amount satisfies. -/
def optionLimitOk : Option ℚ → ℚ → Prop
  | none, _ => True
  | some c, v => v ≤ c

instance (o : Option ℚ) (v : ℚ) : Decidable (optionLimitOk o v) :=
  match o with
  | none => isTrue trivial
  | some _ => inferInstanceAs (Decidable (_ ≤ _))

/-- Feasibility of a variable valuation for the linear program of
optimize_savings: the variable domains (NonNegativeReals) and constraints 1
to 6 of the source, with the field names of the Pyomo model.  A horizon
equation exists as a Pyomo constraint only when its relevant account list
is nonempty; with an empty list the build raises ValueError at line 119
(see unmatchedHorizons and optimizeSavings) and no model, hence no
feasible valuation of it, exists — the field
horizon_constraints_exist records this, and horizon_constraints states
each equation that was actually built. -/
structure Feasible (m : LPModel) (x : Assignment) : Prop where
  inv_nonneg : ∀ a ∈ m.eligible, 0 ≤ x.inv a.name
  taxable_nonneg : 0 ≤ x.taxable_interest
  tax_free_nonneg : 0 ≤ x.tax_free_interest_non_isa
  total_investment_constraint : invSum m.eligible x.inv = m.total_investment
  horizon_constraints_exist : ∀ h ∈ uniqueHorizons m.goals,
    m.eligible.filter (fun a => a.term == h) ≠ []
  horizon_constraints : ∀ h ∈ uniqueHorizons m.goals,
    m.eligible.filter (fun a => a.term == h) ≠ [] →
    invSum (m.eligible.filter (fun a => a.term == h)) x.inv
      = ((m.goals.filter (fun g => g.horizon == h)).map SavingsGoal.amount).sum
  non_isa_interest_constraint :
    x.taxable_interest + x.tax_free_interest_non_isa
      = interestSum (nonIsaAccounts m.eligible) x.inv
  tax_free_limit : x.tax_free_interest_non_isa ≤ m.total_tax_free_allowance
  investment_limits : ∀ a ∈ m.eligible, optionLimitOk a.max_investment (x.inv a.name)
  isa_limit_constraint : isaAccounts m.eligible ≠ [] →
    invSum (isaAccounts m.eligible) x.inv ≤ m.isa_allowance_remaining

/-- The objective function of the model (objective_rule in the source,
lines 95 to 99): post tax annual interest plus a tiny reward for leaving
ISA allowance unused. -/
def objectiveVal (m : LPModel) (x : Assignment) : ℚ :=
  interestSum (isaAccounts m.eligible) x.inv
    + (x.tax_free_interest_non_isa + x.taxable_interest * (1 - m.tax_rate))
    + (m.isa_allowance_remaining - invSum (isaAccounts m.eligible) x.inv) * 2e-7

/-- An optimal valuation: feasible, and of maximal objective value among
feasible valuations (the source passes sense = -1, maximisation). -/
def OptimalFor (m : LPModel) (x : Assignment) : Prop :=
  Feasible m x ∧ ∀ y : Assignment, Feasible m y → objectiveVal m y ≤ objectiveVal m x

/-- Replace every space by a plus sign, the call
acc.name.replace(space, plus) used to synthesize a search url. -/
def spaceToPlus (s : String) : String :=
  String.mk (s.toList.map (fun c => if c = ' ' then '+' else c))

/-- The synthesized web search url of the result loop. -/
def googleUrl (name : String) : String :=
  "https://www.google.com/search?q=" ++ spaceToPlus name

/-- The human readable term label of the result loop. -/
def termLabel (t : ℤ) : String :=
  if t > 0 then toString t ++ " months" else "Easy access"

/-- One Investment line item as built in the result loop (lines 156 to
164): rounded amount, rounded aer in percent, term label, ISA flag,
explicit or synthesized url, platform. -/
def mkInvestment (a : Account) (amount : ℚ) : Investment :=
  { account_name := a.name
    amount := pyRound2 amount
    aer := pyRound2 (a.interest_rate * 100)
    term := termLabel a.term
    is_isa := isISA a
    url := pyOrStr a.url (googleUrl a.name)
    platform := a.platform }

/-- The investments list built by the result loop: one line item per
eligible account whose solved amount exceeds the 1e-6 tolerance. -/
def optimalInvestments (elig : List Account) (xinv : String → ℚ) : List Investment :=
  (elig.filter (fun a => decide ((1e-6 : ℚ) < xinv a.name))).map
    (fun a => mkInvestment a (xinv a.name))

/-- The accumulator total_gross_return of the result loop: unrounded solved
amount times rate, summed over the accounts above the tolerance. -/
def totalGrossReturn (elig : List Account) (xinv : String → ℚ) : ℚ :=
  ((elig.filter (fun a => decide ((1e-6 : ℚ) < xinv a.name))).map
    (fun a => xinv a.name * a.interest_rate)).sum

/-- The value non_isa_gross_return of the source (line 168): rounded amount
times rounded rate, summed over the non ISA investment line items. -/
def nonIsaGrossReturn (invs : List Investment) : ℚ :=
  ((invs.filter (fun i => !i.is_isa)).map (fun i => i.amount * (i.aer / 100))).sum

/-- The investments list of the optimal branch as a function of the raw
inputs. -/
def reportedInvestments (input : OptimizationInput) (accounts : List Account)
    (x : Assignment) : List Investment :=
  optimalInvestments (eligibleAccounts input accounts) x.inv

/-- The value total_gross_return of the optimal branch. -/
def reportedGross (input : OptimizationInput) (accounts : List Account)
    (x : Assignment) : ℚ :=
  totalGrossReturn (eligibleAccounts input accounts) x.inv

/-- The value non_isa_gross_return of the optimal branch. -/
def reportedNonIsaGross (input : OptimizationInput) (accounts : List Account)
    (x : Assignment) : ℚ :=
  nonIsaGrossReturn (reportedInvestments input accounts x)

/-- The value taxable_return of the optimal branch (line 169). -/
def reportedTaxable (input : OptimizationInput) (accounts : List Account)
    (x : Assignment) : ℚ :=
  max 0 (reportedNonIsaGross input accounts x - totalAllowanceOf input)

/-- The value tax_paid of the optimal branch (line 170). -/
def reportedTaxDue (input : OptimizationInput) (accounts : List Account)
    (x : Assignment) : ℚ :=
  reportedTaxable input accounts x * (getTaxInfo input.earnings).tax_rate

/-- The value total_net_return of the optimal branch (line 171). -/
def reportedNet (input : OptimizationInput) (accounts : List Account)
    (x : Assignment) : ℚ :=
  reportedGross input accounts x - reportedTaxDue input accounts x

/-- The value net_effective_aer of the optimal branch (line 174). -/
def reportedNetAer (input : OptimizationInput) (accounts : List Account)
    (x : Assignment) : ℚ :=
  if 0 < input.total_investment then
    reportedNet input accounts x / input.total_investment * 100
  else 0

/-- A Python value passed as a keyword argument: a number or a string. -/
inductive PyVal where
  | num (q : ℚ)
  | str (s : String)
  deriving DecidableEq

/-- The keyword arguments of the Summary constructor call of the optimal
branch (lines 176 to 184), in source order.  Exactly these seven fields are
passed. -/
def summaryCallKwargs (input : OptimizationInput) (accounts : List Account)
    (x : Assignment) : List (String × PyVal) :=
  [("total_investment", PyVal.num (pyRound2 input.total_investment)),
   ("gross_annual_interest", PyVal.num (pyRound2 (reportedGross input accounts x))),
   ("net_annual_interest", PyVal.num (pyRound2 (reportedNet input accounts x))),
   ("net_effective_aer", PyVal.num (pyRound2 (reportedNetAer input accounts x))),
   ("tax_due", PyVal.num (pyRound2 (reportedTaxDue input accounts x))),
   ("tax_band", PyVal.str (getTaxInfo input.earnings).band),
   ("personal_savings_allowance", PyVal.num (getTaxInfo input.earnings).psa)]

/-- Look up a required numeric dataclass field among keyword arguments; a
missing field is the Python TypeError for a missing required argument. -/
def kwNum (kw : List (String × PyVal)) (f : String) : Except String ℚ :=
  match kw.find? (fun p => p.1 == f) with
  | some (_, PyVal.num q) => Except.ok q
  | some (_, PyVal.str _) => Except.error ("TypeError: field " ++ f ++ " expects a number")
  | none => Except.error ("TypeError: Summary.__init__ missing required argument " ++ f)

/-- Look up a required string dataclass field among keyword arguments. -/
def kwStr (kw : List (String × PyVal)) (f : String) : Except String String :=
  match kw.find? (fun p => p.1 == f) with
  | some (_, PyVal.str s) => Except.ok s
  | some (_, PyVal.num _) => Except.error ("TypeError: field " ++ f ++ " expects a string")
  | none => Except.error ("TypeError: Summary.__init__ missing required argument " ++ f)

/-- Construction of the Summary dataclass from keyword arguments.  The
dataclass (app/models.py lines 40 to 50) declares nine fields, none with a
default, so each must be supplied or the construction raises TypeError. -/
def Summary.fromKwargs (kw : List (String × PyVal)) : Except String Summary := do
  let ti ← kwNum kw "total_investment"
  let gi ← kwNum kw "gross_annual_interest"
  let ni ← kwNum kw "net_annual_interest"
  let na ← kwNum kw "net_effective_aer"
  let td ← kwNum kw "tax_due"
  let tb ← kwStr kw "tax_band"
  let ps ← kwNum kw "personal_savings_allowance"
  let tr ← kwNum kw "tax_rate"
  let tf ← kwNum kw "tax_free_allowance_remaining"
  pure { total_investment := ti, gross_annual_interest := gi,
         net_annual_interest := ni, net_effective_aer := na, tax_due := td,
         tax_band := tb, personal_savings_allowance := ps, tax_rate := tr,
         tax_free_allowance_remaining := tf }

/-- Termination condition reported by the external solver, as the source
reads it from results.solver.termination_condition. -/
inductive SolverTermination where
  | optimal (x : Assignment)
  | infeasible
  | unbounded
  | other (reason : String)

/-- The string form of the termination condition interpolated into the
failure status message. -/
def terminationStr : SolverTermination → String
  | SolverTermination.optimal _ => "optimal"
  | SolverTermination.infeasible => "infeasible"
  | SolverTermination.unbounded => "unbounded"
  | SolverTermination.other r => r

/-- The optimal branch of optimize_savings (lines 150 to 190): build the
investment line items, recompute the summary figures, construct the Summary
dataclass and return the Optimal result.  The Summary construction passes
only seven of the nine required fields, so it raises. -/
def interpretOptimal (input : OptimizationInput) (accounts : List Account)
    (x : Assignment) : Except String OptimizationResult :=
  match Summary.fromKwargs (summaryCallKwargs input accounts x) with
  | Except.ok s =>
      Except.ok { investments := reportedInvestments input accounts x
                  summary := some s
                  status := "Optimal" }
  | Except.error e => Except.error e

/-- The engine entry point optimize_savings (lines 48 to 196), with the
external solver passed as a function.  An Except.error result models a
raised Python exception.  After the empty-eligible early return, the
horizon constraint loop (lines 113 to 119) raises ValueError whenever some
goal horizon is matched by no eligible account term (the equation then
resolves to a plain Python Boolean); only when every horizon equation can
be built is the solver invoked. -/
def optimizeSavings (solve : LPModel → SolverTermination)
    (input : OptimizationInput) (accounts : List Account) :
    Except String OptimizationResult :=
  if (eligibleAccounts input accounts).isEmpty then
    Except.ok { investments := []
                summary := none
                status := "No eligible accounts found for the given investment horizon." }
  else if (unmatchedHorizons input accounts).isEmpty then
    match solve (mkModel input accounts) with
    | SolverTermination.optimal x => interpretOptimal input accounts x
    | t =>
      Except.ok { investments := []
                  summary := none
                  status := "Optimization failed. Status: " ++ terminationStr t }
  else
    Except.error "ValueError: Invalid constraint expression. The constraint expression resolved to a trivial Boolean instead of a Pyomo object."

/-- Modelled from the spec: the external LinearProgramSolver capability
(Pyomo with GLPK) is not part of this repository, only called by it.
Section 4.3 of the specification requires an exact LP solver reporting a
termination status among optimal, infeasible, unbounded and other.  An
exact solver reports optimal only with a feasible maximising valuation, and
reports infeasible whenever no feasible valuation exists. -/
def SolverExact (solve : LPModel → SolverTermination) : Prop :=
  (∀ m x, solve m = SolverTermination.optimal x → OptimalFor m x)
    ∧ (∀ m, (¬ ∃ x : Assignment, Feasible m x) → solve m = SolverTermination.infeasible)

/-- Written from the claim wording of C3: the non ISA gross interest
recomputed from the rounded investment list, here expressed directly over
the eligible accounts that pass the tolerance filter. -/
def specNonIsaGross (elig : List Account) (xinv : String → ℚ) : ℚ :=
  ((elig.filter (fun a => !(isISA a) && decide ((1e-6 : ℚ) < xinv a.name))).map
    (fun a => pyRound2 (xinv a.name) * (pyRound2 (a.interest_rate * 100) / 100))).sum

/-- Written from the claim wording of C9: ISA interest plus tax free non
ISA interest plus taxed interest after tax, plus the tie break reward on
the remaining ISA allowance. -/
def specObjective (m : LPModel) (x : Assignment) : ℚ :=
  ((isaAccounts m.eligible).map (fun a => x.inv a.name * a.interest_rate)).sum
    + x.tax_free_interest_non_isa + x.taxable_interest * (1 - m.tax_rate)
    + 2e-7 * (m.isa_allowance_remaining
        - ((isaAccounts m.eligible).map (fun a => x.inv a.name)).sum)

/-- Concrete non ISA easy access account used in several scenarios. -/
def accW : Account :=
  { name := "A", interest_rate := 0.03334, account_type := "easy_access", platform := "P" }

/-- Concrete one account catalog. -/
def accountsW : List Account := [accW]

/-- Concrete input: one goal of 1000 at horizon 0, earnings not provided. -/
def inputW : OptimizationInput :=
  { total_investment := 1000, savings_goals := [{ amount := 1000, horizon := 0 }] }

/-- The unique feasible valuation for the W scenario: the full 1000 in the
single account, all interest tax free. -/
def xW : Assignment :=
  { inv := fun _ => 1000, taxable_interest := 0, tax_free_interest_non_isa := 33.34 }

/-- Concrete account for the ISA allowance overflow scenario. -/
def accV : Account :=
  { name := "A", interest_rate := 0.04, account_type := "easy_access", platform := "P" }

/-- Concrete one account catalog for the ISA allowance overflow scenario. -/
def accountsV : List Account := [accV]

/-- Concrete input whose already used ISA allowance exceeds 20000. -/
def inputV : OptimizationInput :=
  { total_investment := 1000, savings_goals := [{ amount := 1000, horizon := 0 }],
    isa_allowance_used := some 25000 }

/-- The unique feasible valuation for the V scenario. -/
def xV : Assignment :=
  { inv := fun _ => 1000, taxable_interest := 0, tax_free_interest_non_isa := 40 }

/-- First of two eligible accounts sharing the name A. -/
def accD1 : Account :=
  { name := "A", interest_rate := 0.04, account_type := "easy_access", platform := "P" }

/-- Second of two eligible accounts sharing the name A. -/
def accD2 : Account :=
  { name := "A", interest_rate := 0.04, account_type := "easy_access", platform := "Q" }

/-- Catalog with a duplicated account name. -/
def accountsD : List Account := [accD1, accD2]

/-- Concrete input for the duplicated name scenario. -/
def inputD : OptimizationInput :=
  { total_investment := 0.036, savings_goals := [{ amount := 0.036, horizon := 0 }] }

/-- The unique feasible valuation for the D scenario: the shared variable
carries 0.018, counted once per occurrence by every constraint. -/
def xD : Assignment :=
  { inv := fun _ => 0.018, taxable_interest := 0, tax_free_interest_non_isa := 0.00144 }

/-- A twelve month fixed term account, used where an eligible account
exists but no account matches the requested horizon. -/
def accB12 : Account :=
  { name := "B", interest_rate := 0.05, account_type := "fixed_term", platform := "P",
    term := 12 }

/-- Catalog for the infeasible horizon scenario. -/
def accountsC2 : List Account := [accB12]

/-- Input requesting a horizon of 18 months, which no account matches. -/
def inputC2 : OptimizationInput :=
  { total_investment := 1000, savings_goals := [{ amount := 1000, horizon := 18 }] }

/-- A twenty four month fixed term account, ineligible for a one year
investment term. -/
def accB24 : Account :=
  { name := "B", interest_rate := 0.05, account_type := "fixed_term", platform := "P",
    term := 24 }

/-- Catalog whose only account is ineligible. -/
def accountsE : List Account := [accB24]

/-- Input with an immediate goal, giving a one year investment term. -/
def inputE : OptimizationInput :=
  { total_investment := 100, savings_goals := [{ amount := 100, horizon := 0 }] }

/-- A foldl of max is an upper bound of its start and of every element. -/
theorem le_foldl_max (l : List ℚ) :
    ∀ a : ℚ, a ≤ l.foldl max a ∧ ∀ x ∈ l, x ≤ l.foldl max a := by
  induction l with
  | nil => intro a; exact ⟨le_refl a, by simp⟩
  | cons b t ih =>
    intro a
    have h := ih (max a b)
    refine ⟨le_trans (le_max_left a b) h.1, ?_⟩
    intro x hx
    rcases List.mem_cons.mp hx with h1 | h1
    · subst h1; exact le_trans (le_max_right a x) h.1
    · exact h.2 x h1

/-- A foldl of max is its start or one of the elements. -/
theorem foldl_max_mem (l : List ℚ) :
    ∀ a : ℚ, l.foldl max a = a ∨ l.foldl max a ∈ l := by
  induction l with
  | nil => intro a; left; rfl
  | cons b t ih =>
    intro a
    rcases ih (max a b) with h | h
    · rcases max_choice a b with h2 | h2
      · left; simp only [List.foldl_cons]; rw [h, h2]
      · right; simp only [List.foldl_cons]; rw [h, h2]; exact List.mem_cons_self b t
    · right; exact List.mem_cons_of_mem b h

/-- The non ISA gross return recomputed from the rounded line items agrees
with the claim side formula written over the filtered account list. -/
theorem nonIsaGross_eq_spec (l : List Account) (xinv : String → ℚ) :
    nonIsaGrossReturn (optimalInvestments l xinv) = specNonIsaGross l xinv := by
  induction l with
  | nil => rfl
  | cons a t ih =>
    by_cases h1 : (1e-6 : ℚ) < xinv a.name
    · by_cases h2 : isISA a = true
      · simp only [optimalInvestments, specNonIsaGross, nonIsaGrossReturn,
          List.filter_cons, h1, decide_True, Bool.true_and, Bool.and_true, h2,
          Bool.not_true, Bool.false_and, if_true, if_false, List.map_cons,
          mkInvestment, Bool.not_false] at ih ⊢
        simpa [h2] using ih
      · have h2f : isISA a = false := by
          cases h : isISA a
          · rfl
          · exact absurd h h2
        simp only [optimalInvestments, specNonIsaGross, nonIsaGrossReturn,
          List.filter_cons, h1, decide_True, h2f, Bool.not_false, Bool.true_and,
          Bool.and_true, if_true, List.map_cons, mkInvestment] at ih ⊢
        simpa [h2f] using ih
    · have h1f : decide ((1e-6 : ℚ) < xinv a.name) = false := by
        simpa using h1
      simp only [optimalInvestments, specNonIsaGross, nonIsaGrossReturn,
        List.filter_cons, h1f, Bool.and_false, if_false] at ih ⊢
      exact ih

/-- For a model without eligible ISA accounts and a 20 percent tax rate, a
feasible valuation with zero taxable interest is optimal whenever the non
ISA interest is the same for every feasible valuation. -/
theorem optimal_of_no_isa (m : LPModel) (x : Assignment) (g : ℚ)
    (hisa : isaAccounts m.eligible = [])
    (hrate : m.tax_rate = 0.20)
    (hg : ∀ y : Assignment, Feasible m y →
      interestSum (nonIsaAccounts m.eligible) y.inv = g)
    (hx : Feasible m x) (hx0 : x.taxable_interest = 0) :
    OptimalFor m x := by
  refine ⟨hx, fun y hy => ?_⟩
  have h1 : y.taxable_interest + y.tax_free_interest_non_isa = g :=
    (hy.non_isa_interest_constraint).trans (hg y hy)
  have h2 : x.taxable_interest + x.tax_free_interest_non_isa = g :=
    (hx.non_isa_interest_constraint).trans (hg x hx)
  have h3 : 0 ≤ y.taxable_interest := hy.taxable_nonneg
  unfold objectiveVal
  rw [hisa, hrate]
  simp only [interestSum, invSum, List.map_nil, List.sum_nil]
  linarith [h1, h2, hx0, h3]

/-- The account type of the W account does not contain isa. -/
theorem isISA_accW : isISA accW = false := by decide

/-- The single account of the W catalog is eligible. -/
theorem eligW_eval : eligibleAccounts inputW accountsW = [accW] := by
  simp [eligibleAccounts, accountsW, List.filter_cons, accW]

/-- The W scenario has the single horizon 0. -/
theorem uniqueHorizonsW : uniqueHorizons inputW.savings_goals = [0] := by decide

/-- The W catalog has no ISA account. -/
theorem isaW : isaAccounts (eligibleAccounts inputW accountsW) = [] := by decide

/-- The W catalog is entirely non ISA. -/
theorem nonIsaW : nonIsaAccounts (eligibleAccounts inputW accountsW) = [accW] := by
  rw [eligW_eval]
  simp [nonIsaAccounts, List.filter_cons, isISA_accW]

/-- The valuation xW is feasible for the W scenario. -/
theorem feasW : Feasible (mkModel inputW accountsW) xW := by
  refine ⟨?_, ?_, ?_, ?_, ?_, ?_, ?_, ?_, ?_, ?_⟩
  · intro a ha
    have ha2 : a = accW := by
      have h3 : a ∈ [accW] := by
        simpa only [mkModel, eligW_eval] using ha
      simpa using h3
    subst ha2
    show (0 : ℚ) ≤ xW.inv accW.name
    norm_num [xW]
  · show (0 : ℚ) ≤ xW.taxable_interest
    norm_num [xW]
  · show (0 : ℚ) ≤ xW.tax_free_interest_non_isa
    norm_num [xW]
  · show invSum (eligibleAccounts inputW accountsW) xW.inv = inputW.total_investment
    rw [eligW_eval]
    norm_num [invSum, xW, accW, inputW]
  · decide
  · intro h hh _hne
    have h0 : h = 0 := by
      have h3 : h ∈ uniqueHorizons inputW.savings_goals := hh
      rw [uniqueHorizonsW] at h3
      simpa using h3
    subst h0
    show invSum ((eligibleAccounts inputW accountsW).filter (fun a => a.term == (0 : ℤ)))
        xW.inv
      = ((inputW.savings_goals.filter (fun g => g.horizon == (0 : ℤ))).map
          SavingsGoal.amount).sum
    rw [eligW_eval]
    norm_num [invSum, xW, accW, inputW, List.filter_cons]
  · show xW.taxable_interest + xW.tax_free_interest_non_isa
      = interestSum (nonIsaAccounts (eligibleAccounts inputW accountsW)) xW.inv
    rw [nonIsaW]
    norm_num [interestSum, xW, accW]
  · show xW.tax_free_interest_non_isa ≤ totalAllowanceOf inputW
    norm_num [xW, totalAllowanceOf, getTaxInfo, getStartingRateForSavings, inputW]
  · intro a ha
    have ha2 : a = accW := by
      have h3 : a ∈ [accW] := by
        simpa only [mkModel, eligW_eval] using ha
      simpa using h3
    subst ha2
    trivial
  · intro hne
    exact absurd isaW hne

/-- Every feasible valuation of the W scenario earns non ISA interest
exactly 33.34. -/
theorem interestW (y : Assignment) (hy : Feasible (mkModel inputW accountsW) y) :
    interestSum (nonIsaAccounts (eligibleAccounts inputW accountsW)) y.inv = 33.34 := by
  have h := hy.total_investment_constraint
  have h2 : invSum [accW] y.inv = 1000 := by
    rw [← eligW_eval]
    exact h
  have h3 : y.inv "A" = 1000 := by
    simpa [invSum, accW] using h2
  rw [nonIsaW]
  simp [interestSum, accW, h3]
  norm_num

/-- The valuation xW is optimal for the W scenario. -/
theorem optW : OptimalFor (mkModel inputW accountsW) xW := by
  refine optimal_of_no_isa _ _ 33.34 ?_ rfl ?_ feasW rfl
  · show isaAccounts (eligibleAccounts inputW accountsW) = []
    exact isaW
  · intro y hy
    exact interestW y hy

/-- The account type of the V account does not contain isa. -/
theorem isISA_accV : isISA accV = false := by decide

/-- The single account of the V catalog is eligible. -/
theorem eligV_eval : eligibleAccounts inputV accountsV = [accV] := by
  simp [eligibleAccounts, accountsV, List.filter_cons, accV]

/-- The V scenario has the single horizon 0. -/
theorem uniqueHorizonsV : uniqueHorizons inputV.savings_goals = [0] := by decide

/-- The V catalog has no ISA account. -/
theorem isaV : isaAccounts (eligibleAccounts inputV accountsV) = [] := by
  rw [eligV_eval]
  simp [isaAccounts, List.filter_cons, isISA_accV]

/-- The V catalog is entirely non ISA. -/
theorem nonIsaV : nonIsaAccounts (eligibleAccounts inputV accountsV) = [accV] := by
  rw [eligV_eval]
  simp [nonIsaAccounts, List.filter_cons, isISA_accV]

/-- The valuation xV is feasible for the V scenario. -/
theorem feasV : Feasible (mkModel inputV accountsV) xV := by
  refine ⟨?_, ?_, ?_, ?_, ?_, ?_, ?_, ?_, ?_, ?_⟩
  · intro a ha
    have ha2 : a = accV := by
      have h3 : a ∈ [accV] := by
        simpa only [mkModel, eligV_eval] using ha
      simpa using h3
    subst ha2
    show (0 : ℚ) ≤ xV.inv accV.name
    norm_num [xV]
  · show (0 : ℚ) ≤ xV.taxable_interest
    norm_num [xV]
  · show (0 : ℚ) ≤ xV.tax_free_interest_non_isa
    norm_num [xV]
  · show invSum (eligibleAccounts inputV accountsV) xV.inv = inputV.total_investment
    rw [eligV_eval]
    norm_num [invSum, xV, accV, inputV]
  · decide
  · intro h hh _hne
    have h0 : h = 0 := by
      have h3 : h ∈ uniqueHorizons inputV.savings_goals := hh
      rw [uniqueHorizonsV] at h3
      simpa using h3
    subst h0
    show invSum ((eligibleAccounts inputV accountsV).filter (fun a => a.term == (0 : ℤ)))
        xV.inv
      = ((inputV.savings_goals.filter (fun g => g.horizon == (0 : ℤ))).map
          SavingsGoal.amount).sum
    rw [eligV_eval]
    norm_num [invSum, xV, accV, inputV, List.filter_cons]
  · show xV.taxable_interest + xV.tax_free_interest_non_isa
      = interestSum (nonIsaAccounts (eligibleAccounts inputV accountsV)) xV.inv
    rw [nonIsaV]
    norm_num [interestSum, xV, accV]
  · show xV.tax_free_interest_non_isa ≤ totalAllowanceOf inputV
    norm_num [xV, totalAllowanceOf, getTaxInfo, getStartingRateForSavings, inputV]
  · intro a ha
    have ha2 : a = accV := by
      have h3 : a ∈ [accV] := by
        simpa only [mkModel, eligV_eval] using ha
      simpa using h3
    subst ha2
    trivial
  · intro hne
    exact absurd isaV hne

/-- Every feasible valuation of the V scenario earns non ISA interest
exactly 40. -/
theorem interestV (y : Assignment) (hy : Feasible (mkModel inputV accountsV) y) :
    interestSum (nonIsaAccounts (eligibleAccounts inputV accountsV)) y.inv = 40 := by
  have h := hy.total_investment_constraint
  have h2 : invSum [accV] y.inv = 1000 := by
    rw [← eligV_eval]
    exact h
  have h3 : y.inv "A" = 1000 := by
    simpa [invSum, accV] using h2
  rw [nonIsaV]
  simp [interestSum, accV, h3]
  norm_num

/-- The valuation xV is optimal for the V scenario. -/
theorem optV : OptimalFor (mkModel inputV accountsV) xV := by
  refine optimal_of_no_isa _ _ 40 ?_ rfl ?_ feasV rfl
  · show isaAccounts (eligibleAccounts inputV accountsV) = []
    exact isaV
  · intro y hy
    exact interestV y hy

/-- The account types of the duplicated accounts do not contain isa. -/
theorem isISA_accD1 : isISA accD1 = false := by decide

/-- The account type of the second duplicated account does not contain
isa. -/
theorem isISA_accD2 : isISA accD2 = false := by decide

/-- Both accounts of the D catalog are eligible. -/
theorem eligD_eval : eligibleAccounts inputD accountsD = [accD1, accD2] := by
  simp [eligibleAccounts, accountsD, List.filter_cons, accD1, accD2]

/-- The D scenario has the single horizon 0. -/
theorem uniqueHorizonsD : uniqueHorizons inputD.savings_goals = [0] := by decide

/-- The D catalog has no ISA account. -/
theorem isaD : isaAccounts (eligibleAccounts inputD accountsD) = [] := by
  rw [eligD_eval]
  simp [isaAccounts, List.filter_cons, isISA_accD1, isISA_accD2]

/-- The D catalog is entirely non ISA. -/
theorem nonIsaD : nonIsaAccounts (eligibleAccounts inputD accountsD) = [accD1, accD2] := by
  rw [eligD_eval]
  simp [nonIsaAccounts, List.filter_cons, isISA_accD1, isISA_accD2]

/-- The valuation xD is feasible for the D scenario. -/
theorem feasD : Feasible (mkModel inputD accountsD) xD := by
  refine ⟨?_, ?_, ?_, ?_, ?_, ?_, ?_, ?_, ?_, ?_⟩
  · intro a ha
    have ha2 : a ∈ [accD1, accD2] := by
      simpa only [mkModel, eligD_eval] using ha
    rcases List.mem_cons.mp ha2 with h3 | h3
    · subst h3
      show (0 : ℚ) ≤ xD.inv accD1.name
      norm_num [xD]
    · have h4 : a = accD2 := by simpa using h3
      subst h4
      show (0 : ℚ) ≤ xD.inv accD2.name
      norm_num [xD]
  · show (0 : ℚ) ≤ xD.taxable_interest
    norm_num [xD]
  · show (0 : ℚ) ≤ xD.tax_free_interest_non_isa
    norm_num [xD]
  · show invSum (eligibleAccounts inputD accountsD) xD.inv = inputD.total_investment
    rw [eligD_eval]
    norm_num [invSum, xD, accD1, accD2, inputD]
  · decide
  · intro h hh _hne
    have h0 : h = 0 := by
      have h3 : h ∈ uniqueHorizons inputD.savings_goals := hh
      rw [uniqueHorizonsD] at h3
      simpa using h3
    subst h0
    show invSum ((eligibleAccounts inputD accountsD).filter (fun a => a.term == (0 : ℤ)))
        xD.inv
      = ((inputD.savings_goals.filter (fun g => g.horizon == (0 : ℤ))).map
          SavingsGoal.amount).sum
    rw [eligD_eval]
    norm_num [invSum, xD, accD1, accD2, inputD, List.filter_cons]
  · show xD.taxable_interest + xD.tax_free_interest_non_isa
      = interestSum (nonIsaAccounts (eligibleAccounts inputD accountsD)) xD.inv
    rw [nonIsaD]
    norm_num [interestSum, xD, accD1, accD2]
  · show xD.tax_free_interest_non_isa ≤ totalAllowanceOf inputD
    norm_num [xD, totalAllowanceOf, getTaxInfo, getStartingRateForSavings, inputD]
  · intro a ha
    have ha2 : a ∈ [accD1, accD2] := by
      simpa only [mkModel, eligD_eval] using ha
    rcases List.mem_cons.mp ha2 with h3 | h3
    · subst h3; trivial
    · have h4 : a = accD2 := by simpa using h3
      subst h4; trivial
  · intro hne
    exact absurd isaD hne

/-- Every feasible valuation of the D scenario earns non ISA interest
exactly 0.00144. -/
theorem interestD (y : Assignment) (hy : Feasible (mkModel inputD accountsD) y) :
    interestSum (nonIsaAccounts (eligibleAccounts inputD accountsD)) y.inv = 0.00144 := by
  have h := hy.total_investment_constraint
  have h2 : invSum [accD1, accD2] y.inv = 0.036 := by
    rw [← eligD_eval]
    exact h
  have h3 : y.inv "A" + y.inv "A" = 0.036 := by
    simpa [invSum, accD1, accD2] using h2
  rw [nonIsaD]
  simp [interestSum, accD1, accD2]
  linarith [h3]

/-- The valuation xD is optimal for the D scenario. -/
theorem optD : OptimalFor (mkModel inputD accountsD) xD := by
  refine optimal_of_no_isa _ _ 0.00144 ?_ rfl ?_ feasD rfl
  · show isaAccounts (eligibleAccounts inputD accountsD) = []
    exact isaD
  · intro y hy
    exact interestD y hy

/-- C7: for every earnings value the tax policy resolver returns, without
any error, PSA 1000, rate 0.20 and band Basic Rate when earnings are unset
or at most 50270; PSA 500, rate 0.40 and Higher Rate above 50270 up to
125140; and PSA 0, rate 0.45 and Additional Rate above 125140.  The
resolver is a total function, so it always returns a value. -/
theorem c7_tax_policy (e : ℚ) :
    getTaxInfo none = { psa := 1000, tax_rate := 0.20, band := "Basic Rate" }
    ∧ (e ≤ 50270 →
        getTaxInfo (some e) = { psa := 1000, tax_rate := 0.20, band := "Basic Rate" })
    ∧ (50270 < e → e ≤ 125140 →
        getTaxInfo (some e) = { psa := 500, tax_rate := 0.40, band := "Higher Rate" })
    ∧ (125140 < e →
        getTaxInfo (some e) = { psa := 0, tax_rate := 0.45, band := "Additional Rate" }) := by
  refine ⟨rfl, ?_, ?_, ?_⟩
  · intro h1
    simp [getTaxInfo, h1]
  · intro h1 h2
    simp [getTaxInfo, not_le.mpr h1, h2]
  · intro h1
    have h2 : ¬ e ≤ 50270 := by linarith
    have h3 : ¬ e ≤ 125140 := by linarith
    simp [getTaxInfo, h2, h3]

/-- Witness for C7: the tax policy evaluated in each band. -/
theorem c7_witness :
    getTaxInfo (some 40000) = { psa := 1000, tax_rate := 0.20, band := "Basic Rate" }
    ∧ getTaxInfo (some 60000) = { psa := 500, tax_rate := 0.40, band := "Higher Rate" }
    ∧ getTaxInfo (some 130000) = { psa := 0, tax_rate := 0.45, band := "Additional Rate" }
    ∧ getTaxInfo none = { psa := 1000, tax_rate := 0.20, band := "Basic Rate" } :=
  ⟨(c7_tax_policy 40000).2.1 (by norm_num),
   (c7_tax_policy 60000).2.2.1 (by norm_num) (by norm_num),
   (c7_tax_policy 130000).2.2.2 (by norm_num),
   (c7_tax_policy 0).1⟩

/-- C8: the starting rate for savings is 0 when earnings are unset, 0 from
17570 upwards, the full 5000 at or below 12570, and otherwise 5000 minus
the excess over 12570, floored at 0. -/
theorem c8_starting_rate (e : ℚ) :
    getStartingRateForSavings none = 0
    ∧ (17570 ≤ e → getStartingRateForSavings (some e) = 0)
    ∧ (e ≤ 12570 → getStartingRateForSavings (some e) = 5000)
    ∧ (12570 < e → e < 17570 →
        getStartingRateForSavings (some e) = max 0 (5000 - (e - 12570))) := by
  refine ⟨rfl, ?_, ?_, ?_⟩
  · intro h1
    have h2 : (12570 : ℚ) + 5000 ≤ e := by linarith
    simp [getStartingRateForSavings, h2]
  · intro h1
    have h2 : ¬ (12570 : ℚ) + 5000 ≤ e := by linarith
    simp [getStartingRateForSavings, h2, h1]
  · intro h1 h2
    have h3 : ¬ (12570 : ℚ) + 5000 ≤ e := by linarith
    have h4 : ¬ e ≤ 12570 := by linarith
    simp [getStartingRateForSavings, h3, h4]

/-- Witness for C8: the starting rate evaluated in each band. -/
theorem c8_witness :
    getStartingRateForSavings (some 10000) = 5000
    ∧ getStartingRateForSavings (some 20000) = 0
    ∧ getStartingRateForSavings (some 15000) = max 0 (5000 - (15000 - 12570))
    ∧ getStartingRateForSavings none = 0 :=
  ⟨(c8_starting_rate 10000).2.2.1 (by norm_num),
   (c8_starting_rate 20000).2.1 (by norm_num),
   (c8_starting_rate 15000).2.2.2 (by norm_num) (by norm_num),
   (c8_starting_rate 0).1⟩

/-- C9: the built objective equals ISA interest plus tax free non ISA
interest plus taxed interest after tax plus the tie break term with epsilon
2e-7 on the remaining ISA allowance, and the largest possible tie break
contribution for a full 20000 allowance is 0.004, below one cent. -/
theorem c9_objective :
    (∀ (m : LPModel) (x : Assignment), objectiveVal m x = specObjective m x)
    ∧ (2e-7 : ℚ) * 20000 = 0.004 ∧ (0.004 : ℚ) < 0.01 := by
  refine ⟨?_, by norm_num, by norm_num⟩
  intro m x
  simp only [objectiveVal, specObjective, interestSum, invSum]
  ring

/-- C6: the eligibility cutoff investment_term_years is at least one year,
bounds every goal horizon in years, and is either exactly one year or one
of the goal horizons; an account is eligible exactly when it is in the
catalog and its term is 0 or its term in years is within the cutoff; and an
empty eligible set returns the no eligible accounts result before any
solver is invoked (the result does not depend on the solver). -/
theorem c6_eligibility (input : OptimizationInput) (accounts : List Account)
    (acc : Account) :
    (1 ≤ investmentTermYears input
      ∧ (∀ g ∈ input.savings_goals, (g.horizon : ℚ) / 12 ≤ investmentTermYears input)
      ∧ (investmentTermYears input = 1
          ∨ ∃ g ∈ input.savings_goals, investmentTermYears input = (g.horizon : ℚ) / 12))
    ∧ (acc ∈ eligibleAccounts input accounts
        ↔ acc ∈ accounts
          ∧ (acc.term = 0 ∨ (acc.term : ℚ) / 12 ≤ investmentTermYears input))
    ∧ (eligibleAccounts input accounts = [] →
        ∀ solve : LPModel → SolverTermination,
          optimizeSavings solve input accounts
            = Except.ok
                { investments := [], summary := none,
                  status := "No eligible accounts found for the given investment horizon.",
                  optimization_record_id := none }) := by
  refine ⟨⟨le_max_left 1 _, ?_, ?_⟩, ?_, ?_⟩
  · intro g hg
    refine le_trans ?_ (le_max_right 1 (maxHorizonYears input.savings_goals))
    have hmem : (g.horizon : ℚ) / 12
        ∈ input.savings_goals.map (fun g2 => (g2.horizon : ℚ) / 12) :=
      List.mem_map_of_mem _ hg
    unfold maxHorizonYears
    rcases hcase : input.savings_goals.map (fun g2 => (g2.horizon : ℚ) / 12) with _ | ⟨q, qs⟩
    · rw [hcase] at hmem
      simp at hmem
    · rw [hcase] at hmem
      rw [hcase]
      show (g.horizon : ℚ) / 12 ≤ qs.foldl max q
      rcases List.mem_cons.mp hmem with h1 | h1
      · rw [h1]
        exact (le_foldl_max qs q).1
      · exact (le_foldl_max qs q).2 _ h1
  · rcases hcase : input.savings_goals.map (fun g2 => (g2.horizon : ℚ) / 12) with _ | ⟨q, qs⟩
    · left
      unfold investmentTermYears maxHorizonYears
      rw [hcase]
      show max 1 0 = 1
      norm_num
    · have hm : qs.foldl max q ∈ (q :: qs) := by
        rcases foldl_max_mem qs q with h1 | h1
        · rw [h1]
          exact List.mem_cons_self q qs
        · exact List.mem_cons_of_mem q h1
      have hm2 : qs.foldl max q
          ∈ input.savings_goals.map (fun g2 => (g2.horizon : ℚ) / 12) := by
        rw [hcase]
        exact hm
      rcases List.mem_map.mp hm2 with ⟨g, hg, hgv⟩
      rcases max_choice 1 (maxHorizonYears input.savings_goals) with h1 | h1
      · left
        exact h1
      · right
        refine ⟨g, hg, ?_⟩
        unfold investmentTermYears
        rw [h1]
        unfold maxHorizonYears
        rw [hcase]
        show pyMaxList (q :: qs) 0 = (g.horizon : ℚ) / 12
        rw [show pyMaxList (q :: qs) 0 = qs.foldl max q from rfl]
        exact hgv.symm
  · simp only [eligibleAccounts, List.mem_filter, Bool.or_eq_true, beq_iff_eq,
      decide_eq_true_eq]
  · intro hempty solve
    simp [optimizeSavings, hempty]

/-- Witness for C6: the 24 month account is ineligible for the one year
term, and the pipeline returns the no eligible accounts result for any
solver. -/
theorem c6_witness :
    eligibleAccounts inputE accountsE = []
    ∧ optimizeSavings (fun _ => SolverTermination.infeasible) inputE accountsE
        = Except.ok
            { investments := [], summary := none,
              status := "No eligible accounts found for the given investment horizon.",
              optimization_record_id := none } := by
  have he : eligibleAccounts inputE accountsE = [] := by
    simp only [eligibleAccounts, accountsE, List.filter_cons, List.filter_nil]
    norm_num [accB24, investmentTermYears, maxHorizonYears, pyMaxList, inputE]
  exact ⟨he, (c6_eligibility inputE accountsE accB24).2.2 he _⟩

/-- C4: for every optimal valuation and every horizon present among the
goals, the allocated amounts over accounts whose term equals that horizon
sum exactly to the goal amounts with that horizon; and an eligible account
whose term matches no goal horizon occurs in none of the horizon
equations (each equation only sums accounts whose term equals its
horizon). -/
theorem c4_horizon_allocation (input : OptimizationInput) (accounts : List Account)
    (x : Assignment) (hopt : OptimalFor (mkModel input accounts) x) :
    (∀ h : ℤ, h ∈ input.savings_goals.map SavingsGoal.horizon →
      invSum ((eligibleAccounts input accounts).filter (fun a => a.term == h)) x.inv
        = ((input.savings_goals.filter (fun g => g.horizon == h)).map
            SavingsGoal.amount).sum)
    ∧ (∀ a ∈ eligibleAccounts input accounts,
        (∀ g ∈ input.savings_goals, g.horizon ≠ a.term) →
        ∀ h ∈ uniqueHorizons input.savings_goals,
          a ∉ (eligibleAccounts input accounts).filter (fun a2 => a2.term == h)) := by
  constructor
  · intro h hmem
    have hh : h ∈ uniqueHorizons input.savings_goals := by
      unfold uniqueHorizons
      exact List.mem_dedup.mpr hmem
    exact hopt.1.horizon_constraints h hh (hopt.1.horizon_constraints_exist h hh)
  · intro a ha hterm h hh hmemf
    have h2 := (List.mem_filter.mp hmemf).2
    have h3 : a.term = h := by simpa using h2
    have h4 : h ∈ input.savings_goals.map SavingsGoal.horizon := by
      unfold uniqueHorizons at hh
      exact List.mem_dedup.mp hh
    rcases List.mem_map.mp h4 with ⟨g, hg, hgh⟩
    exact hterm g hg (hgh.trans h3.symm)

/-- Witness for C4: in the W scenario the horizon 0 equation allocates
exactly the 1000 of the single goal. -/
theorem c4_witness :
    invSum ((eligibleAccounts inputW accountsW).filter (fun a => a.term == (0 : ℤ)))
        xW.inv
      = ((inputW.savings_goals.filter (fun g => g.horizon == (0 : ℤ))).map
          SavingsGoal.amount).sum :=
  (c4_horizon_allocation inputW accountsW xW optW).1 0 (by decide)

/-- C5 counterexample: with isa_allowance_used 25000 and a catalog without
ISA accounts, the V scenario has an optimal valuation whose ISA allocation,
namely 0, is not at most 20000 minus isa_allowance_used, because that bound
is negative; the claim as stated fails on this input. -/
theorem c5_counterexample :
    OptimalFor (mkModel inputV accountsV) xV
    ∧ pyOr inputV.isa_allowance_used 0 = 25000
    ∧ ¬ invSum (isaAccounts (eligibleAccounts inputV accountsV)) xV.inv
        ≤ 20000 - pyOr inputV.isa_allowance_used 0 := by
  refine ⟨optV, ?_, ?_⟩
  · norm_num [inputV, pyOr]
  · rw [isaV]
    norm_num [invSum, inputV, pyOr]

/-- C5 amended: for every optimal valuation the amounts allocated to ISA
accounts sum to at most the larger of 0 and 20000 minus isa_allowance_used
(unset or zero treated as 0, following the source).  When at least one
eligible ISA account exists the model enforces the original bound; when
none exists the sum is 0, which matches the original bound only if
isa_allowance_used is at most 20000. -/
theorem c5_isa_cap (input : OptimizationInput) (accounts : List Account)
    (x : Assignment) (hopt : OptimalFor (mkModel input accounts) x) :
    invSum (isaAccounts (eligibleAccounts input accounts)) x.inv
      ≤ max 0 (20000 - pyOr input.isa_allowance_used 0) := by
  by_cases hI : isaAccounts (eligibleAccounts input accounts) = []
  · rw [hI]
    simp [invSum]
  · have h := hopt.1.isa_limit_constraint hI
    exact le_trans h (le_max_right 0 _)

/-- Witness for C5 amended: the V scenario satisfies the amended bound. -/
theorem c5_witness :
    invSum (isaAccounts (eligibleAccounts inputV accountsV)) xV.inv
      ≤ max 0 (20000 - pyOr inputV.isa_allowance_used 0) :=
  c5_isa_cap inputV accountsV xV optV

/-- C2: the claim (and spec Scenario C) states that when a goal horizon is
matched by no eligible account term the pipeline reaches the solver, the
solver reports infeasible, and optimize_savings returns the status
Optimization failed. Status: infeasible without raising.  The code instead
raises during model build: with relevant_accounts empty, line 118 computes
the plain Python bool 0 == cumulative_goal_amount and ConstraintList.add
raises ValueError at line 119, before any solve.  Here the twelve month
account is eligible, so the eligibility gate is passed, the goal horizon 18
is matched by no eligible account, and optimize_savings evaluates to the
raised error whatever the solver would have answered. -/
theorem c2_build_raises :
    eligibleAccounts inputC2 accountsC2 ≠ []
    ∧ (18 : ℤ) ∈ uniqueHorizons inputC2.savings_goals
    ∧ (eligibleAccounts inputC2 accountsC2).filter (fun a => a.term == (18 : ℤ)) = []
    ∧ ∀ solve : LPModel → SolverTermination,
        optimizeSavings solve inputC2 accountsC2
          = Except.error "ValueError: Invalid constraint expression. The constraint expression resolved to a trivial Boolean instead of a Pyomo object." := by
  have helig : eligibleAccounts inputC2 accountsC2 = [accB12] := by
    simp only [eligibleAccounts, accountsC2, List.filter_cons, List.filter_nil]
    norm_num [accB12, investmentTermYears, maxHorizonYears, pyMaxList, inputC2,
      le_max_iff]
  have hunm : unmatchedHorizons inputC2 accountsC2 = [18] := by
    unfold unmatchedHorizons
    rw [helig]
    decide
  have hemp : (eligibleAccounts inputC2 accountsC2).isEmpty = false := by
    rw [helig]
    rfl
  refine ⟨?_, by decide, ?_, ?_⟩
  · rw [helig]
    simp
  · rw [helig]
    decide
  · intro solve
    simp only [optimizeSavings, hemp, hunm, List.isEmpty_cons, Bool.false_eq_true,
      if_false]

/-- C3 counterexample: in the W scenario (single non ISA account at rate
0.03334 with the full 1000 allocated) the reported gross interest figure is
the rounding of the raw solver amount times the rate, 33.34, while the
gross recomputed from the rounded Investment list (rounded amount times
rounded aer over 100) is 33.3.  The reported figure is therefore not
recomputed from the rounded Investment list, refuting the blanket claim for
the gross figure. -/
theorem c3_counterexample :
    OptimalFor (mkModel inputW accountsW) xW
    ∧ pyRound2 (reportedGross inputW accountsW xW) = 33.34
    ∧ pyRound2 (((reportedInvestments inputW accountsW xW).map
        (fun i => i.amount * (i.aer / 100))).sum) = 33.3
    ∧ (33.34 : ℚ) ≠ 33.3 := by
  have hg1 : reportedGross inputW accountsW xW = 33.34 := by
    unfold reportedGross totalGrossReturn
    rw [eligW_eval]
    norm_num [List.filter_cons, xW, accW]
  have hinv : reportedInvestments inputW accountsW xW = [mkInvestment accW 1000] := by
    unfold reportedInvestments optimalInvestments
    rw [eligW_eval]
    norm_num [List.filter_cons, xW]
  refine ⟨optW, ?_, ?_, by norm_num⟩
  · rw [hg1]
    norm_num [pyRound2, roundHalfEven]
  · rw [hinv]
    simp only [List.map_cons, List.map_nil, List.sum_cons, List.sum_nil]
    norm_num [mkInvestment, accW, pyRound2, roundHalfEven]

/-- C3 amended: for every optimal valuation, the reported tax figures are
recomputed from the rounded Investment list: non_isa_gross is the sum of
rounded amount times rounded rate over the non ISA line items, taxable is
max 0 of non_isa_gross minus the total tax free allowance, tax_due is
taxable times the tax rate, net is the gross total minus tax_due, and
net_effective_aer is net over total_investment times 100, or 0 when
total_investment is 0; the gross total itself is computed from the raw
solver amounts above the tolerance, not from the rounded list. -/
theorem c3_reported_figures (input : OptimizationInput) (accounts : List Account)
    (x : Assignment) (_hopt : OptimalFor (mkModel input accounts) x) :
    reportedNonIsaGross input accounts x
      = specNonIsaGross (eligibleAccounts input accounts) x.inv
    ∧ reportedTaxDue input accounts x
      = max 0 (specNonIsaGross (eligibleAccounts input accounts) x.inv
          - totalAllowanceOf input) * (getTaxInfo input.earnings).tax_rate
    ∧ reportedNet input accounts x
      = reportedGross input accounts x - reportedTaxDue input accounts x
    ∧ (input.total_investment = 0 → reportedNetAer input accounts x = 0)
    ∧ (0 < input.total_investment →
        reportedNetAer input accounts x
          = reportedNet input accounts x / input.total_investment * 100) := by
  have hspec : reportedNonIsaGross input accounts x
      = specNonIsaGross (eligibleAccounts input accounts) x.inv := by
    unfold reportedNonIsaGross reportedInvestments
    exact nonIsaGross_eq_spec _ _
  refine ⟨hspec, ?_, rfl, ?_, ?_⟩
  · unfold reportedTaxDue reportedTaxable
    rw [hspec]
  · intro h0
    unfold reportedNetAer
    rw [h0]
    simp
  · intro hpos
    unfold reportedNetAer
    rw [if_pos hpos]

/-- Witness for C3 amended: the W scenario instantiates the recomputation
equalities, with a positive total investment. -/
theorem c3_witness :
    reportedNonIsaGross inputW accountsW xW
      = specNonIsaGross (eligibleAccounts inputW accountsW) xW.inv
    ∧ (0 : ℚ) < inputW.total_investment
    ∧ reportedNetAer inputW accountsW xW
      = reportedNet inputW accountsW xW / inputW.total_investment * 100 := by
  have hpos : (0 : ℚ) < inputW.total_investment := by norm_num [inputW]
  exact ⟨(c3_reported_figures inputW accountsW xW optW).1, hpos,
    (c3_reported_figures inputW accountsW xW optW).2.2.2.2 hpos⟩

/-- C10: decision variables are keyed by account name, so any two eligible
accounts with the same name receive the same amount under every valuation;
in the D scenario with two accounts both named A, the optimal valuation
emits each duplicate as a separate Investment line item carrying the
rounding of the shared amount, and the sum of the reported amounts, 0.04,
exceeds the total investment 0.036.  Distinct names are nowhere checked or
enforced by the engine. -/
theorem c10_duplicate_names :
    (∀ (x : Assignment) (elig : List Account) (a b : Account),
        a ∈ elig → b ∈ elig → a.name = b.name → x.inv a.name = x.inv b.name)
    ∧ OptimalFor (mkModel inputD accountsD) xD
    ∧ reportedInvestments inputD accountsD xD
        = [mkInvestment accD1 0.018, mkInvestment accD2 0.018]
    ∧ (mkInvestment accD1 0.018).amount = pyRound2 (xD.inv accD1.name)
    ∧ (mkInvestment accD2 0.018).amount = pyRound2 (xD.inv accD2.name)
    ∧ ((reportedInvestments inputD accountsD xD).map Investment.amount).sum = 0.04
    ∧ inputD.total_investment = 0.036
    ∧ (0.036 : ℚ) < 0.04 := by
  have hinv : reportedInvestments inputD accountsD xD
      = [mkInvestment accD1 0.018, mkInvestment accD2 0.018] := by
    unfold reportedInvestments optimalInvestments
    rw [eligD_eval]
    norm_num [List.filter_cons, xD]
  refine ⟨?_, optD, hinv, rfl, rfl, ?_, rfl, by norm_num⟩
  · intro x elig a b ha hb hname
    rw [hname]
  · rw [hinv]
    simp only [List.map_cons, List.map_nil, List.sum_cons, List.sum_nil]
    norm_num [mkInvestment, pyRound2, roundHalfEven]

/-- Witness for C10: the shared variable gives the two duplicated accounts
of the D catalog the same amount. -/
theorem c10_witness : xD.inv accD1.name = xD.inv accD2.name :=
  (c10_duplicate_names).1 xD (eligibleAccounts inputD accountsD) accD1 accD2
    (by rw [eligD_eval]; exact List.mem_cons_self _ _)
    (by rw [eligD_eval]; exact List.mem_cons_of_mem _ (List.mem_cons_self _ _))
    rfl

/-- C1: the claim states that an optimal solver termination always yields a
returned Optimal result with a populated summary and no exception.  The
code contradicts this and its own endpoint test: the Summary dataclass
requires nine fields but the optimal branch constructs it with only seven,
omitting tax_rate and tax_free_allowance_remaining, so every optimal solve
raises TypeError.  Here, with a solver returning the proven optimal
valuation of the W scenario, optimize_savings evaluates to the raised
error. -/
theorem c1_optimal_branch_raises :
    OptimalFor (mkModel inputW accountsW) xW
    ∧ optimizeSavings (fun _ => SolverTermination.optimal xW) inputW accountsW
        = Except.error "TypeError: Summary.__init__ missing required argument tax_rate" := by
  refine ⟨optW, ?_⟩
  rfl
